import Mathlib

/-!
Verification development for the sampling module of gpr_isotropy
(gpr_isotropy/sample.py). The Python module is embedded shallowly:

* sky maps are lists of rationals; healpy's pixel count function is
  `nside2npix`;
* scipy's Gamma sampler is passed in as an oracle `rvs : shape -> size -> draws`,
  so that which shape parameter the code hands it is part of the embedding;
* numpy's 1-d broadcasting multiply is `npMul`;
* fallible Python evaluation is `Except PyErr`; attribute and name resolution
  are embedded explicitly where the source relies on them, with the tables of
  bound names transcribed from the source file.
-/

namespace GprIsotropy

/-- Python exception values raised by the embedded code. A failed `assert`
raises `assertionError` (the specification's taxonomy calls those raised at
Sampler construction ConfigError). -/
inductive PyErr where
  | assertionError (msg : String)
  | attributeError (name : String)
  | nameError (name : String)
  | typeError (msg : String)
  | valueError (msg : String)
  | recursionError
deriving DecidableEq, Repr

deriving instance DecidableEq for Except

/-- healpy's nside2npix: a HEALPix sphere at resolution nside has 12*nside^2
pixels. -/
def nside2npix (nside : ℕ) : ℕ := 12 * nside * nside

/-- numpy's elementwise multiplication of two 1-d arrays with broadcasting:
equal lengths multiply elementwise, a length-1 operand is broadcast across the
other, and any other pair of lengths raises ValueError. -/
def npMul (a b : List ℚ) : Except PyErr (List ℚ) :=
  if a.length = b.length then .ok (List.zipWith (fun x y => x * y) a b)
  else if a.length = 1 then .ok (b.map (fun y => a.headD 0 * y))
  else if b.length = 1 then .ok (a.map (fun x => x * b.headD 0))
  else .error (.valueError "operands could not be broadcast together")

/-- IsoRoModel (sample.py lines 65-83): the isotropic Ro model, holding only
its resolution. -/
structure IsoRoModel where
  nside : ℕ
deriving DecidableEq, Repr

/-- IsoRoModel.ndim (lines 73-75): always 1. -/
def IsoRoModel.ndim (_m : IsoRoModel) : ℕ := 1

/-- the field self._ones of IsoRoModel (line 71): np.ones(hp.nside2npix(self.nside)). -/
def IsoRoModel.ones (m : IsoRoModel) : List ℚ :=
  List.replicate (nside2npix m.nside) 1

/-- IsoRoModel.__call__ (lines 77-78): return self._ones*r, a numpy broadcast
product with no explicit check of the parameter vector's length. -/
def IsoRoModel.call (m : IsoRoModel) (r : List ℚ) : Except PyErr (List ℚ) :=
  npMul m.ones r

/-- IsoRoModel.initialize (lines 80-83), the Gamma sampler passed in as rvs
(rvs shape size stands for scipy's gamma.rvs(shape, size=size)):
state = gamma.rvs(len(maps)+1, size=nwalkers); state /= np.sum(exposure);
return state.reshape((nwalkers, self.ndim)). Reshaping the length-nwalkers
draw vector to (nwalkers, 1) makes each draw its own singleton row. The shape
parameter the source passes is len(maps)+1, the number of observed maps plus
one. The Lean name adds a suffix to the source's method name, which collides
with a Lean command keyword. -/
def IsoRoModel.initializeEnsemble (rvs : ℚ → ℕ → List ℚ)
    (maps : List (List ℚ)) (exposure : List ℚ) (nwalkers : ℕ) : List (List ℚ) :=
  let state := rvs ((maps.length : ℚ) + 1) nwalkers
  let state2 := state.map (fun x => x / exposure.sum)
  state2.map (fun x => [x])

/-- The claim's reading of the same initializer, following the specification's
words: shape = (total observed count across all maps)+1, the total observed
count being the sum of every entry of every observed map. Declared only to be
compared against the source-derived `IsoRoModel.initializeEnsemble`. -/
def isoInitializeEnsembleSpec (rvs : ℚ → ℕ → List ℚ)
    (maps : List (List ℚ)) (exposure : List ℚ) (nwalkers : ℕ) : List (List ℚ) :=
  let state := rvs ((maps.map (fun m => m.sum)).sum + 1) nwalkers
  let state2 := state.map (fun x => x / exposure.sum)
  state2.map (fun x => [x])

/-- a Gamma oracle that records the shape parameter it was called with: every
draw equals the shape. Used to exhibit which shape the code passes. -/
def shapeRvs : ℚ → ℕ → List ℚ := fun shape size => List.replicate size shape

/-- a Gamma oracle whose draws are all 1: a strictly positive draw list of the
requested size, used as a concrete witness input. -/
def constRvs : ℚ → ℕ → List ℚ := fun _ size => List.replicate size 1

/-- PixRoModel (sample.py lines 85-108): the pixelized Ro model, with the
session resolution and the coarser model resolution ro_nside (its one allowed
named parameter). -/
structure PixRoModel where
  nside : ℕ
  ro_nside : ℕ
deriving DecidableEq, Repr

/-- PixRoModel.ndim (lines 91-93): the pixel count at ro_nside. -/
def PixRoModel.ndim (m : PixRoModel) : ℕ := nside2npix m.ro_nside

/-- PixRoModel.__call__ (lines 95-96): hp.ud_grade(ro_pix, self.nside, power=-2),
the external regridder passed in as udGrade; no check of the input length of
any kind is made by the method itself. -/
def PixRoModel.call (udGrade : List ℚ → ℕ → List ℚ) (m : PixRoModel)
    (ro_pix : List ℚ) : List ℚ :=
  udGrade ro_pix m.nside

/-- name lookup in a scope: a name that is not bound raises NameError. -/
def lookupName (scope : List String) (x : String) : Except PyErr Unit :=
  if x ∈ scope then .ok () else .error (.nameError x)

/-- the names visible inside the body of the for-loop of PixRoModel.initialize
(lines 98-107): the method's parameters (self, maps, exposure, nwalkers), its
locals (nside, npix, state) and the loop variable pix, plus the module-level
bindings of sample.py. No binding of the name i exists anywhere in the file. -/
def pixScopeNames : List String :=
  ["self", "maps", "exposure", "nwalkers", "nside", "npix", "state", "pix",
   "sys", "h5py", "emcee", "hp", "np", "gamma", "utils",
   "DEFAULT_NUM_SAMPLES", "DEFAULT_NUM_WALKERS", "DEFAULT_NUM_THREADS",
   "posterior", "likelihood", "RoModel", "IsoRoModel", "PixRoModel",
   "YlmRoModel", "ExpYlmRoModel", "logpost", "Sampler", "__doc__", "__author__"]

/-- the for-loop of lines 106-107: for pix in xrange(npix):
state[:,i] = gamma.rvs(maps[i]+1, size=nwalkers)/exposure[i]. Each executed
body first resolves the name i; were that name bound, the body would fill one
column of state, but it never resolves, so the fill is unreachable and the
embedding carries only the name resolution. -/
def pixLoop : List ℕ → Except PyErr Unit
  | [] => .ok ()
  | _pix :: rest =>
    match lookupName pixScopeNames "i" with
    | .error e => .error e
    | .ok _ => pixLoop rest

/-- PixRoModel.initialize (lines 98-108): downsample the observed maps and the
exposure to ro_nside with the external regridder udGrade, allocate state with
nwalkers rows and one column per coarse pixel (np.empty, its content
unspecified, embedded as zeros), run the pixel loop, and return state only if
the loop finishes. The Gamma oracle rvs is unused because the loop body never
gets past resolving the name i. The Lean name adds a suffix to the source's
method name, which collides with a Lean command keyword. -/
def PixRoModel.initializeEnsemble (udGrade : List ℚ → ℕ → List ℚ)
    (_rvs : ℚ → ℕ → List ℚ) (m : PixRoModel) (maps : List (List ℚ))
    (exposure : List ℚ) (nwalkers : ℕ) : Except PyErr (List (List ℚ)) :=
  let nside := m.ro_nside
  let _mapsDown := maps.map (fun mm => udGrade mm nside)
  let _exposureDown := udGrade exposure nside
  let npix := nside2npix nside
  match pixLoop (List.range npix) with
  | .error e => .error e
  | .ok _ => .ok (List.replicate nwalkers (List.replicate npix 0))

/-- the kernel collaborator: opaque to the sampler but for its resolution. -/
structure Kernel where
  nside : ℕ
deriving DecidableEq, Repr

/-- the prior collaborator: opaque to the sampler but for its resolution. -/
structure RPrior where
  nside : ℕ
deriving DecidableEq, Repr

/-- the RoModel argument handed to Sampler: one of the two implemented
variants (the two harmonic variants of lines 110-146 raise
NotImplementedError from every method and are not constructible models). -/
inductive RModel where
  | iso (m : IsoRoModel)
  | pix (m : PixRoModel)
deriving DecidableEq, Repr

/-- the resolution of either model variant. -/
def RModel.nside : RModel → ℕ
  | .iso m => m.nside
  | .pix m => m.nside

/-- the dimensionality of either model variant. -/
def RModel.ndim : RModel → ℕ
  | .iso m => IsoRoModel.ndim m
  | .pix m => PixRoModel.ndim m

/-- the arguments of Sampler.__init__ (lines 165-175). -/
structure SamplerConfig where
  nside : ℕ
  maps : List (List ℚ)
  exposure : List ℚ
  kernel : Kernel
  rprior : RPrior
  rmodel : RModel
  nwalkers : ℕ
  nthreads : ℕ
deriving DecidableEq, Repr

/-- the loop of lines 181-182: assert len(m)==self._npix for every observed
map, in order. -/
def checkMaps (npix : ℕ) : List (List ℚ) → Except PyErr Unit
  | [] => .ok ()
  | m :: ms =>
    if m.length = npix then checkMaps npix ms
    else .error (.assertionError "map length disagrees with npix")

/-- the construction-time consistency checks of lines 181-195, in source
order: map lengths, exposure length, kernel resolution, prior resolution,
model resolution. -/
def Sampler.validate (cfg : SamplerConfig) : Except PyErr Unit :=
  match checkMaps (nside2npix cfg.nside) cfg.maps with
  | .error e => .error e
  | .ok _ =>
    if cfg.exposure.length ≠ nside2npix cfg.nside then
      .error (.assertionError "exposure length disagrees with npix")
    else if cfg.kernel.nside ≠ cfg.nside then
      .error (.assertionError "kernel.nside disagrees with nside")
    else if cfg.rprior.nside ≠ cfg.nside then
      .error (.assertionError "rprior.nside disagrees with nside")
    else if RModel.nside cfg.rmodel ≠ cfg.nside then
      .error (.assertionError "rmodel.nside disagrees with nside")
    else .ok ()

/-- the walker-count adjustment of lines 202-205: if nwalkers < 2*self.npix
the count is set to 2*self.npix and a warning is printed. The pair is (the
effective walker count, whether the warning was emitted). The comparison is
against twice the full-resolution pixel count self.npix, not twice the model
dimensionality. -/
def Sampler.effectiveNwalkers (npix nwalkers : ℕ) : ℕ × Bool :=
  if nwalkers < 2 * npix then (2 * npix, true) else (nwalkers, false)

/-- every attribute resolvable on the Sampler instance at line 208: the class
attributes (the properties of lines 218-277, the methods, and
_PROGRESSBAR_WIDTH of line 163) and the instance fields assigned before line
208 (lines 178-205). Neither rmodel nor ro is among them: the corresponding
properties are named RoModel and Ro. -/
def Sampler.attrNames : List String :=
  ["_PROGRESSBAR_WIDTH", "nside", "npix", "maps", "exposure", "kernel",
   "rprior", "Ro", "Ro_Eps", "RoModel", "nwalkers", "sampler", "state",
   "count", "initialize", "sample",
   "_nside", "_npix", "_maps", "_exposure", "_kernel", "_rprior", "_rmodel",
   "_ro", "_ro_eps", "_nwalkers"]

/-- attribute lookup on the Sampler instance at construction time. -/
def Sampler.getattr (x : String) : Except PyErr Unit :=
  if x ∈ Sampler.attrNames then .ok () else .error (.attributeError x)

/-- the names in scope inside Sampler.__init__ at line 208: its parameters,
its loop variable m, and the module-level bindings of sample.py. num_threads
is not among them: the parameter declared at line 174 is named nthreads. -/
def Sampler.initScopeNames : List String :=
  ["self", "nside", "maps", "exposure", "kernel", "rprior", "rmodel",
   "nwalkers", "nthreads", "m",
   "sys", "h5py", "emcee", "hp", "np", "gamma", "utils",
   "DEFAULT_NUM_SAMPLES", "DEFAULT_NUM_WALKERS", "DEFAULT_NUM_THREADS",
   "posterior", "likelihood", "RoModel", "IsoRoModel", "PixRoModel",
   "YlmRoModel", "ExpYlmRoModel", "logpost", "Sampler", "__doc__",
   "__author__"]

/-- evaluation of the engine set-up call emcee.Sampler(self.nwalkers,
self.rmodel.ndim, logpost, args=[self.rmodel, self.ro], threads=num_threads)
(lines 208-214), resolving each name in Python's left-to-right evaluation
order. -/
def Sampler.engineSetup : Except PyErr Unit :=
  match lookupName Sampler.initScopeNames "emcee" with
  | .error e => .error e
  | .ok _ =>
  match Sampler.getattr "nwalkers" with
  | .error e => .error e
  | .ok _ =>
  match Sampler.getattr "rmodel" with
  | .error e => .error e
  | .ok _ =>
  match lookupName Sampler.initScopeNames "logpost" with
  | .error e => .error e
  | .ok _ =>
  match Sampler.getattr "ro" with
  | .error e => .error e
  | .ok _ =>
  match lookupName Sampler.initScopeNames "num_threads" with
  | .error e => .error e
  | .ok _ => .ok ()

/-- the fields a successfully constructed Sampler would carry (lines
178-216). -/
structure Sampler where
  nside : ℕ
  npix : ℕ
  maps : List (List ℚ)
  exposure : List ℚ
  kernel : Kernel
  rprior : RPrior
  rmodel : RModel
  nwalkers : ℕ
  warned : Bool
  state : Option (List (List ℚ))
  count : ℕ
deriving DecidableEq, Repr

/-- Sampler.__init__ (lines 165-216): the validation of lines 181-195, the
walker-count adjustment of lines 202-205, then the engine set-up of lines
208-214; an object is produced only when every step succeeds. -/
def Sampler.init (cfg : SamplerConfig) : Except PyErr Sampler :=
  match Sampler.validate cfg with
  | .error e => .error e
  | .ok _ =>
    let npix := nside2npix cfg.nside
    let nw := Sampler.effectiveNwalkers npix cfg.nwalkers
    match Sampler.engineSetup with
    | .error e => .error e
    | .ok _ =>
      .ok { nside := cfg.nside, npix := npix, maps := cfg.maps,
            exposure := cfg.exposure, kernel := cfg.kernel,
            rprior := cfg.rprior, rmodel := cfg.rmodel, nwalkers := nw.1,
            warned := nw.2, state := none, count := 0 }

/-- one iteration record of the checkpoint file (utils.into_hdf5 appends one
per completed iteration: the iteration count and the ensemble; the
log-probabilities and the analytic posterior summaries are abstracted away). -/
structure IterationRecord where
  count : ℕ
  state : List (List ℚ)
deriving DecidableEq, Repr

/-- the checkpoint file: how many session-metadata records have been written
into it, and its iteration records in order. -/
structure CheckpointFile where
  metadataWrites : ℕ
  records : List IterationRecord
deriving DecidableEq, Repr

/-- h5py.File(path, 'w') (line 303): mode w truncates, so the opened file is
empty whatever was on disk before the call. -/
def h5pyOpenW : CheckpointFile := { metadataWrites := 0, records := [] }

/-- utils.init_hdf5 (line 304): record the session metadata once. -/
def initHdf5 (f : CheckpointFile) : CheckpointFile :=
  { f with metadataWrites := f.metadataWrites + 1 }

/-- the sampler property (lines 258-260): its body, return self.sampler,
re-reads the very property it defines, so each read only performs another
read. The argument is the interpreter's remaining recursion budget;
exhausting it raises RecursionError, and no budget makes the read return a
value. -/
def Sampler.samplerProp : ℕ → Except PyErr Unit
  | 0 => .error .recursionError
  | depth + 1 => Sampler.samplerProp depth

/-- Sampler.sample (lines 291-333): with a checkpoint path the file is opened
fresh in mode w and the session metadata written once; then the loop header of
line 306 is evaluated, whose first step reads self.sampler. That read never
yields a value, so the loop body is never entered, the finally block closes
the file, and the error propagates. The result is (the file as closed, or
none when no path was given; the outcome of the call). num_samples is never
consumed because the engine call it would parametrize is never reached. -/
def Sampler.sample (_num_samples : ℕ) (checkpoint : Bool) (depth : ℕ) :
    Option CheckpointFile × Except PyErr Unit :=
  let file := if checkpoint then some (initHdf5 h5pyOpenW) else none
  (file, Sampler.samplerProp depth)

/-- the number of parameters of the count setter as defined at line 276:
def count(self): has exactly one. -/
def Sampler.countSetterNumParams : ℕ := 1

/-- assignment to the count property (lines 275-277): the property protocol
calls the setter with the instance and the new value, two arguments; the
setter as written accepts only one, so every assignment raises TypeError
before the setter body runs (the body would run only if the definition took
two parameters). -/
def Sampler.setCount (s : Sampler) (v : ℕ) : Except PyErr Sampler :=
  if Sampler.countSetterNumParams = 2 then .ok { s with count := v }
  else .error (.typeError "count() takes 1 positional argument but 2 were given")

/-- assignment to the state property (lines 266-269): the setter's assert
reads self.rmodel.ndim, and rmodel is not an attribute of the class, so the
read raises AttributeError; were the attribute present, the assert would
compare len(new_state) with the model dimensionality ndim. -/
def Sampler.setState (s : Sampler) (ndim : ℕ) (v : List (List ℚ)) :
    Except PyErr Sampler :=
  match Sampler.getattr "rmodel" with
  | .error e => .error e
  | .ok _ =>
    if v.length = ndim then .ok { s with state := some v }
    else .error (.assertionError "state length disagrees with rmodel.ndim")

/-- Modelled from the spec: utils.from_hdf5 is code of this repository that is
not under src/. The spec says a resume reads the session metadata plus the
last persisted iteration record; this returns that record's iteration count
and ensemble, or none for a file holding no iteration record. -/
def from_hdf5 (f : CheckpointFile) : Option (ℕ × List (List ℚ)) :=
  f.records.getLast?.map (fun r => (r.count, r.state))

/-- Sampler.initialize (lines 279-289). With no path: self.count = 0 and then
self.state = self.rmodel.initialize(maps, exposure, nwalkers) (the ensemble
that call would produce is passed in as freshState). With a path: read
(count, state) from the last record of the file and assign both properties
the same way. Either branch assigns self.count first. The Lean name adds a
suffix to the source's method name, which collides with a Lean command
keyword. -/
def Sampler.initializeState (s : Sampler) (ndim : ℕ)
    (freshState : List (List ℚ)) (path : Option CheckpointFile) :
    Except PyErr Sampler :=
  match path with
  | none =>
    match Sampler.setCount s 0 with
    | .error e => .error e
    | .ok s1 =>
      match Sampler.setState s1 ndim freshState with
      | .error e => .error e
      | .ok s2 => .ok s2
  | some file =>
    match from_hdf5 file with
    | none => .error (.valueError "checkpoint file holds no iteration record")
    | some cs =>
      match Sampler.setCount s cs.1 with
      | .error e => .error e
      | .ok s1 =>
        match Sampler.setState s1 ndim cs.2 with
        | .error e => .error e
        | .ok s2 => .ok s2

/-- the pixel count 12*nside^2 is never 1: it is 0 at nside = 0 and at least
12 otherwise. -/
lemma nside2npix_ne_one (n : ℕ) : nside2npix n ≠ 1 := by
  rcases n with _ | k
  · simp [nside2npix]
  · intro h
    have h12 : 12 ≤ 12 * (k + 1) * (k + 1) := by nlinarith
    rw [nside2npix] at h
    omega

/-- C6 (confirmed): for every valid length-1 parameter vector, the isotropic
transform returns a sky map of length nside2npix nside in which every pixel
equals the single parameter. -/
theorem iso_transform_broadcasts_scalar (nside : ℕ) (x : ℚ) :
    IsoRoModel.call { nside := nside } [x] =
      .ok (List.replicate (nside2npix nside) x) := by
  have hne : nside2npix nside ≠ 1 := nside2npix_ne_one nside
  unfold IsoRoModel.call IsoRoModel.ones npMul
  simp only [List.length_replicate, List.length_singleton]
  rw [if_neg hne, if_neg hne]
  simp [List.map_replicate]

/-- C5 counterexample: with nside = 1 the isotropic model has ndim 1, yet a
parameter vector of length 12 (the full pixel count, not 1) is accepted by the
transform without any error, so a wrong-length vector does not fail with a
DimensionError. -/
theorem iso_transform_wrong_length_accepted :
    IsoRoModel.call { nside := 1 } (List.replicate 12 (1 : ℚ)) =
        .ok (List.replicate 12 (1 : ℚ)) ∧
      (List.replicate 12 (1 : ℚ)).length ≠ IsoRoModel.ndim { nside := 1 } := by
  constructor
  · simp [IsoRoModel.call, IsoRoModel.ones, npMul, nside2npix,
      List.zipWith_replicate]
  · decide

/-- C5 (corrected): the isotropic transform performs no dimension check and
never raises a DimensionError. A parameter vector of length 1 or of length
nside2npix nside is accepted without error (the latter having the wrong
dimensionality whenever it differs from ndim = 1), and any other length fails
only with numpy's broadcasting ValueError. -/
theorem iso_transform_no_dimension_check (nside : ℕ) (params : List ℚ) :
    ((params.length = 1 ∨ params.length = nside2npix nside) →
      ∃ v, IsoRoModel.call { nside := nside } params = .ok v) ∧
    (params.length ≠ 1 → params.length ≠ nside2npix nside →
      IsoRoModel.call { nside := nside } params =
        .error (.valueError "operands could not be broadcast together")) := by
  have hne : nside2npix nside ≠ 1 := nside2npix_ne_one nside
  unfold IsoRoModel.call IsoRoModel.ones npMul
  simp only [List.length_replicate]
  constructor
  · rintro (h1 | hn)
    · by_cases heq : nside2npix nside = params.length
      · rw [if_pos heq]
        exact ⟨_, rfl⟩
      · rw [if_neg heq, if_neg hne, if_pos h1]
        exact ⟨_, rfl⟩
    · rw [if_pos hn.symm]
      exact ⟨_, rfl⟩
  · intro h1 hn
    rw [if_neg (fun h => hn h.symm), if_neg hne, if_neg h1]

/-- C5 witness: at nside = 1 a length-1 vector is accepted by the transform. -/
theorem iso_transform_no_dimension_check_w :
    (([(5 : ℚ)].length = 1 ∨ [(5 : ℚ)].length = nside2npix 1) ∧
      ∃ v, IsoRoModel.call { nside := 1 } [(5 : ℚ)] = .ok v) :=
  ⟨Or.inl (by decide),
    (iso_transform_no_dimension_check 1 [(5 : ℚ)]).1 (Or.inl (by decide))⟩

/-- C3 counterexample: one observed map with entries 2 and 3, so the total
observed count across all maps is 5, while the number of maps is 1. With a
Gamma oracle that returns its shape parameter as the draw, the code's
initializer (shape = len(maps)+1 = 2) and the claim's initializer
(shape = total count + 1 = 6) produce different ensembles. -/
theorem iso_initialize_shape_cex :
    IsoRoModel.initializeEnsemble shapeRvs [[2, 3]] [1] 1 ≠
      isoInitializeEnsembleSpec shapeRvs [[2, 3]] [1] 1 := by
  simp only [IsoRoModel.initializeEnsemble, isoInitializeEnsembleSpec, shapeRvs,
    List.length_cons, List.length_nil, List.map_cons, List.map_nil,
    List.sum_cons, List.sum_nil, List.map_replicate, List.replicate]
  norm_num

/-- C3 (corrected): the isotropic initializer returns an (nwalkers, 1) ensemble
whose rows are the Gamma draws taken with shape parameter (number of observed
maps) + 1, each divided by the total exposure, and every entry is strictly
positive whenever the draws are positive and the total exposure is positive. -/
theorem iso_initialize_number_of_maps_shape (rvs : ℚ → ℕ → List ℚ)
    (maps : List (List ℚ)) (exposure : List ℚ) (nwalkers : ℕ)
    (hlen : (rvs ((maps.length : ℚ) + 1) nwalkers).length = nwalkers)
    (hpos : ∀ x ∈ rvs ((maps.length : ℚ) + 1) nwalkers, 0 < x)
    (hexp : 0 < exposure.sum) :
    (IsoRoModel.initializeEnsemble rvs maps exposure nwalkers).length = nwalkers ∧
    (∀ row ∈ IsoRoModel.initializeEnsemble rvs maps exposure nwalkers,
      ∃ d ∈ rvs ((maps.length : ℚ) + 1) nwalkers, row = [d / exposure.sum]) ∧
    (∀ row ∈ IsoRoModel.initializeEnsemble rvs maps exposure nwalkers,
      ∀ x ∈ row, 0 < x) := by
  refine ⟨?_, ?_, ?_⟩
  · simpa [IsoRoModel.initializeEnsemble] using hlen
  · intro row hrow
    simp only [IsoRoModel.initializeEnsemble, List.map_map, List.mem_map,
      Function.comp] at hrow
    obtain ⟨d, hd, rfl⟩ := hrow
    exact ⟨d, hd, rfl⟩
  · intro row hrow x hx
    simp only [IsoRoModel.initializeEnsemble, List.map_map, List.mem_map,
      Function.comp] at hrow
    obtain ⟨d, hd, rfl⟩ := hrow
    simp only [List.mem_singleton] at hx
    subst hx
    exact div_pos (hpos d hd) hexp

/-- C3 witness: one all-zero map, exposure summing to 2, two walkers, and the
all-ones Gamma oracle satisfy the hypotheses, and the initializer returns two
rows. -/
theorem iso_initialize_number_of_maps_shape_w :
    ((constRvs ((([[0, 0]] : List (List ℚ)).length : ℚ) + 1) 2).length = 2) ∧
    (∀ x ∈ constRvs ((([[0, 0]] : List (List ℚ)).length : ℚ) + 1) 2, 0 < x) ∧
    (0 < ([1, 1] : List ℚ).sum) ∧
    ((IsoRoModel.initializeEnsemble constRvs [[0, 0]] [1, 1] 2).length = 2) :=
  ⟨by simp [constRvs], by simp [constRvs, List.mem_replicate],
   by norm_num,
   (iso_initialize_number_of_maps_shape constRvs [[0, 0]] [1, 1] 2
      (by simp [constRvs])
      (by simp [constRvs, List.mem_replicate])
      (by norm_num)).1⟩

/-- the name i resolved in the pixel-loop scope raises NameError, so a loop
over at least one pixel fails on its first iteration. -/
lemma pixLoop_cons (a : ℕ) (l : List ℕ) :
    pixLoop (a :: l) = .error (.nameError "i") := by
  have hi : lookupName pixScopeNames "i" = .error (.nameError "i") := by decide
  simp only [pixLoop, hi]

/-- C4 (code bug in the source): for any model with a positive coarse
resolution the pixelized initializer raises NameError on the name i in its
first loop iteration, instead of indexing the per-pixel state with the loop
variable pix. -/
theorem pix_initialize_unbound_loop_index (udGrade : List ℚ → ℕ → List ℚ)
    (rvs : ℚ → ℕ → List ℚ) (m : PixRoModel) (maps : List (List ℚ))
    (exposure : List ℚ) (nwalkers : ℕ) (h : 1 ≤ m.ro_nside) :
    PixRoModel.initializeEnsemble udGrade rvs m maps exposure nwalkers =
      .error (.nameError "i") := by
  have hpos : 0 < nside2npix m.ro_nside := by
    unfold nside2npix
    nlinarith
  obtain ⟨k, hk⟩ : ∃ k, nside2npix m.ro_nside = k + 1 :=
    ⟨nside2npix m.ro_nside - 1, by omega⟩
  simp only [PixRoModel.initializeEnsemble]
  rw [hk, List.range_succ_eq_map, pixLoop_cons]

/-- C4 witness: the concrete pixelized model at ro_nside 1 fails with the
NameError on i. -/
theorem pix_initialize_unbound_loop_index_w :
    1 ≤ (1 : ℕ) ∧
    PixRoModel.initializeEnsemble (fun v _ => v) shapeRvs
        { nside := 1, ro_nside := 1 } [] [] 1 = .error (.nameError "i") :=
  ⟨by decide,
   pix_initialize_unbound_loop_index _ _ _ _ _ _ (by decide)⟩

/-- a failed map-length check reports the assert message of line 182. -/
lemma checkMaps_ok_mem (npix : ℕ) :
    ∀ ms, checkMaps npix ms = .ok () → ∀ m ∈ ms, m.length = npix := by
  intro ms
  induction ms with
  | nil =>
    intro _ m hm
    simp at hm
  | cons a as ih =>
    intro h m hm
    by_cases ha : a.length = npix
    · simp only [checkMaps, if_pos ha] at h
      rcases List.mem_cons.mp hm with hma | hm2
      · rw [hma]; exact ha
      · exact ih h m hm2
    · simp only [checkMaps, if_neg ha] at h
      simp at h

/-- the map-length check either passes or raises the assert of line 182. -/
lemma checkMaps_cases (npix : ℕ) :
    ∀ ms, checkMaps npix ms = .ok () ∨
      checkMaps npix ms = .error (.assertionError "map length disagrees with npix") := by
  intro ms
  induction ms with
  | nil => exact Or.inl rfl
  | cons a as ih =>
    by_cases ha : a.length = npix
    · simpa only [checkMaps, if_pos ha] using ih
    · exact Or.inr (by simp only [checkMaps, if_neg ha])

/-- the validation of lines 181-195 either passes or raises some assert. -/
lemma validate_cases (cfg : SamplerConfig) :
    Sampler.validate cfg = .ok () ∨
      ∃ msg, Sampler.validate cfg = .error (.assertionError msg) := by
  unfold Sampler.validate
  rcases checkMaps_cases (nside2npix cfg.nside) cfg.maps with hcm | hcm
  · rw [hcm]
    by_cases h1 : cfg.exposure.length ≠ nside2npix cfg.nside
    · exact Or.inr ⟨_, by rw [if_pos h1]⟩
    by_cases h2 : cfg.kernel.nside ≠ cfg.nside
    · exact Or.inr ⟨_, by rw [if_neg h1, if_pos h2]⟩
    by_cases h3 : cfg.rprior.nside ≠ cfg.nside
    · exact Or.inr ⟨_, by rw [if_neg h1, if_neg h2, if_pos h3]⟩
    by_cases h4 : RModel.nside cfg.rmodel ≠ cfg.nside
    · exact Or.inr ⟨_, by rw [if_neg h1, if_neg h2, if_neg h3, if_pos h4]⟩
    · exact Or.inl (by rw [if_neg h1, if_neg h2, if_neg h3, if_neg h4])
  · rw [hcm]
    exact Or.inr ⟨_, rfl⟩

/-- a passed validation means every length and resolution agrees. -/
lemma validate_ok (cfg : SamplerConfig) (h : Sampler.validate cfg = .ok ()) :
    (∀ m ∈ cfg.maps, m.length = nside2npix cfg.nside) ∧
    cfg.exposure.length = nside2npix cfg.nside ∧
    cfg.kernel.nside = cfg.nside ∧ cfg.rprior.nside = cfg.nside ∧
    RModel.nside cfg.rmodel = cfg.nside := by
  unfold Sampler.validate at h
  rcases checkMaps_cases (nside2npix cfg.nside) cfg.maps with hcm | hcm
  · rw [hcm] at h
    split_ifs at h with h1 h2 h3 h4
    push_neg at h1 h2 h3 h4
    exact ⟨checkMaps_ok_mem _ _ hcm, h1, h2, h3, h4⟩
  · rw [hcm] at h
    simp at h

/-- C2 (confirmed): whenever any observed map length, the exposure length, or
the kernel, prior or model resolution disagrees with the session resolution,
Sampler construction fails with a failed assert (the ConfigError of the
specification) and produces no object. -/
theorem sampler_init_config_error (cfg : SamplerConfig)
    (h : (∃ m ∈ cfg.maps, m.length ≠ nside2npix cfg.nside) ∨
         cfg.exposure.length ≠ nside2npix cfg.nside ∨
         cfg.kernel.nside ≠ cfg.nside ∨ cfg.rprior.nside ≠ cfg.nside ∨
         RModel.nside cfg.rmodel ≠ cfg.nside) :
    ∃ msg, Sampler.init cfg = .error (.assertionError msg) := by
  have hnot : Sampler.validate cfg ≠ .ok () := by
    intro hok
    obtain ⟨hm, he, hk, hr, hrm⟩ := validate_ok cfg hok
    rcases h with ⟨m, hmem, hne⟩ | h | h | h | h
    · exact hne (hm m hmem)
    · exact h he
    · exact h hk
    · exact h hr
    · exact h hrm
  rcases validate_cases cfg with hok | ⟨msg, herr⟩
  · exact absurd hok hnot
  · refine ⟨msg, ?_⟩
    unfold Sampler.init
    rw [herr]

/-- C2 witness: an exposure of length 11 against the pixel count 12 of
resolution 1 is rejected at construction. -/
theorem sampler_init_config_error_w :
    (List.replicate 11 (1 : ℚ)).length ≠ nside2npix 1 ∧
    ∃ msg,
      Sampler.init
        { nside := 1, maps := [], exposure := List.replicate 11 (1 : ℚ),
          kernel := { nside := 1 }, rprior := { nside := 1 },
          rmodel := RModel.iso { nside := 1 }, nwalkers := 24, nthreads := 1 } =
        .error (.assertionError msg) :=
  ⟨by decide, sampler_init_config_error _ (Or.inr (Or.inl (by decide)))⟩

/-- C1 counterexample: with the isotropic model (ndim 1) at resolution 1, a
requested walker count of 10 is at least 2*ndim, yet the construction raises
it to 24 = 2*npix and emits the warning, so the requested count is neither
kept unchanged nor raised to exactly 2*ndim. -/
theorem walker_floor_not_two_ndim :
    RModel.ndim (RModel.iso { nside := 1 }) = 1 ∧
    2 * RModel.ndim (RModel.iso { nside := 1 }) ≤ 10 ∧
    Sampler.effectiveNwalkers (nside2npix 1) 10 = (24, true) := by
  refine ⟨rfl, by decide, by decide⟩

/-- C1 (corrected): the construction-time walker floor compares against twice
the full-resolution pixel count npix, not twice the model dimensionality: a
requested count below 2*npix is raised to exactly 2*npix with the warning
emitted, and a requested count of at least 2*npix is kept unchanged with no
warning. -/
theorem walker_floor_raises_to_two_npix (npix req : ℕ) :
    (req < 2 * npix →
      Sampler.effectiveNwalkers npix req = (2 * npix, true)) ∧
    (2 * npix ≤ req →
      Sampler.effectiveNwalkers npix req = (req, false)) := by
  constructor
  · intro h
    simp [Sampler.effectiveNwalkers, h]
  · intro h
    simp [Sampler.effectiveNwalkers, Nat.not_lt.mpr h]

/-- C1 witness: requesting 10 walkers at pixel count 12 yields 24 with the
warning. -/
theorem walker_floor_raises_to_two_npix_w :
    10 < 2 * nside2npix 1 ∧
    Sampler.effectiveNwalkers (nside2npix 1) 10 = (2 * nside2npix 1, true) :=
  ⟨by decide, (walker_floor_raises_to_two_npix (nside2npix 1) 10).1 (by decide)⟩

/-- C9 (confirmed): every configuration that passes validation fails at the
engine set-up step with the AttributeError on rmodel (the set-up expression
also holds the unbound name num_threads, never reached); no configuration
whatsoever yields a constructed Sampler. -/
theorem construction_always_fails (cfg : SamplerConfig) :
    (Sampler.validate cfg = .ok () →
      Sampler.init cfg = .error (.attributeError "rmodel")) ∧
    ∀ s, Sampler.init cfg ≠ .ok s := by
  have hes : Sampler.engineSetup = .error (.attributeError "rmodel") := by
    decide
  constructor
  · intro hok
    unfold Sampler.init
    rw [hok, hes]
  · intro s hcontra
    unfold Sampler.init at hcontra
    rcases validate_cases cfg with hok | ⟨msg, herr⟩
    · rw [hok, hes] at hcontra
      simp at hcontra
    · rw [herr] at hcontra
      simp at hcontra

/-- C9 witness: a fully consistent configuration passes validation and still
fails construction with the AttributeError on rmodel. -/
theorem construction_always_fails_w :
    Sampler.validate
        { nside := 1, maps := [], exposure := List.replicate 12 (1 : ℚ),
          kernel := { nside := 1 }, rprior := { nside := 1 },
          rmodel := RModel.iso { nside := 1 }, nwalkers := 24, nthreads := 1 } =
      .ok () ∧
    Sampler.init
        { nside := 1, maps := [], exposure := List.replicate 12 (1 : ℚ),
          kernel := { nside := 1 }, rprior := { nside := 1 },
          rmodel := RModel.iso { nside := 1 }, nwalkers := 24, nthreads := 1 } =
      .error (.attributeError "rmodel") :=
  ⟨by decide, (construction_always_fails _).1 (by decide)⟩

/-- the sampler property never returns: every recursion budget ends in
RecursionError. -/
lemma samplerProp_recursion (depth : ℕ) :
    Sampler.samplerProp depth = .error .recursionError := by
  induction depth with
  | zero => rfl
  | succ n ih => simpa [Sampler.samplerProp] using ih

/-- C10 (confirmed): the sampler accessor re-invokes itself, so no recursion
budget lets a read of it return a value, and every Sampler.sample call ends in
the same RecursionError instead of terminating normally. -/
theorem sampler_property_recursion :
    (∀ depth, Sampler.samplerProp depth = .error .recursionError) ∧
    (∀ num_samples checkpoint depth,
      (Sampler.sample num_samples checkpoint depth).2 =
        .error .recursionError) := by
  refine ⟨samplerProp_recursion, ?_⟩
  intro n c d
  simp [Sampler.sample, samplerProp_recursion]

/-- C7 (code bug in the source): a checkpointed Sampler.sample call opens the
file fresh and records the session metadata exactly once, but the read of
self.sampler in the loop header raises before any iteration runs, so the
closed file holds zero iteration records whatever N was requested. -/
theorem sample_checkpoint_metadata_only (num_samples depth : ℕ) :
    Sampler.sample num_samples true depth =
      (some { metadataWrites := 1, records := [] },
       .error .recursionError) := by
  simp [Sampler.sample, initHdf5, h5pyOpenW, samplerProp_recursion]

/-- C8 (code bug in the source): Sampler.initialize with no path assigns
self.count = 0 first, and the count setter accepts no incoming value, so the
call raises TypeError before any state is set. -/
theorem initialize_fresh_raises_type_error (s : Sampler) (ndim : ℕ)
    (freshState : List (List ℚ)) :
    Sampler.initializeState s ndim freshState none =
      .error (.typeError "count() takes 1 positional argument but 2 were given") := by
  simp [Sampler.initializeState, Sampler.setCount, Sampler.countSetterNumParams]

end GprIsotropy
